import Mathlib

/-! Formal model of the Data-Culpa data generator
(`config.py`, `column_space.py`, `data_generator.py`, `output_writers.py`).

Python floats are modelled as rationals, machine randomness as explicit
draw streams passed in as parameters, and the per-(column, day) sqlite
caches as ordered lists of values read by 1-based rowid. -/

attribute [local semireducible] Rat.mul Rat.add Rat.sub Rat.inv

namespace DataGen

/-- Python `int(x)` applied to a rational: truncation toward zero
(`Int.tdiv` is T-division, and a rational's denominator is positive). -/
def pyInt (q : ℚ) : ℤ := q.num.tdiv (q.den : ℤ)

/-- A generated cell value: Python numbers are rationals, the Python `None`
object is `Value.none`; the empty string `Value.str ""` is the null marker
written by the NULLS_HIGH transition. -/
inductive Value where
  | num (q : ℚ)
  | str (s : String)
  | none
deriving DecidableEq

/-- config.py `DataType`. -/
inductive DataType where
  | INTEGER
  | FLOAT
  | STRING_LONG
  | STRING_CATEGORY
deriving DecidableEq

namespace TransitionType

/-- config.py `TransitionType.VALUES_SCALE = 1 <<< 1`. -/
def VALUES_SCALE : ℕ := 2

/-- config.py `TransitionType.VALUES_ALL_STRINGS = 1 <<< 2`. -/
def VALUES_ALL_STRINGS : ℕ := 4

/-- config.py `TransitionType.VALUES_SOME_STRINGS = 1 <<< 3`. -/
def VALUES_SOME_STRINGS : ℕ := 8

/-- config.py `TransitionType.SCHEMA_NAME = 1 <<< 4`. -/
def SCHEMA_NAME : ℕ := 16

/-- config.py `TransitionType.STRING_LONG_TO_SMALL = 1 <<< 5`. -/
def STRING_LONG_TO_SMALL : ℕ := 32

/-- config.py `TransitionType.STRING_SMALL_TO_LONG = 1 <<< 6`. -/
def STRING_SMALL_TO_LONG : ℕ := 64

/-- config.py `TransitionType.NULLS_HIGH = 1 <<< 7`. -/
def NULLS_HIGH : ℕ := 128

/-- config.py `TransitionType.ZEROS_HIGH = 1 <<< 8`. -/
def ZEROS_HIGH : ℕ := 256

end TransitionType

namespace DistributionType

/-- config.py `DistributionType.INCREMENT = 1 <<< 0`. -/
def INCREMENT : ℕ := 1

/-- config.py `DistributionType.UNIFORM = 1 <<< 1`. -/
def UNIFORM : ℕ := 2

/-- config.py `DistributionType.NORMAL = 1 <<< 2`. -/
def NORMAL : ℕ := 4

end DistributionType

/-- config.py `ColumnConfig`. -/
structure ColumnConfig where
  name : String
  data_type : DataType
  transition_percentage : ℚ := 1/2
  transition_type : ℕ := 0
  distribution_flags : ℕ := 0
deriving DecidableEq

/-- config.py `ColumnConfig.__post_init__`: construction succeeds exactly
when the transition percentage lies in [0, 1]. -/
def ColumnConfig.post_init (c : ColumnConfig) : Except String ColumnConfig :=
  if 0 ≤ c.transition_percentage ∧ c.transition_percentage ≤ 1 then Except.ok c
  else Except.error "transition_percentage must be between 0 and 1"

/-- column_space.py `ColumnSpace.has_distribution`. -/
def has_distribution (c : ColumnConfig) (mask : ℕ) : Bool :=
  c.distribution_flags &&& mask != 0

/-- column_space.py `ColumnSpace.has_transition`. -/
def has_transition (c : ColumnConfig) (day_index total_days : ℕ) (mask : ℕ) : Bool :=
  let transition_day : ℤ := pyInt ((total_days : ℚ) * c.transition_percentage)
  if (day_index : ℤ) < transition_day then false
  else c.transition_type &&& mask != 0

/-- column_space.py `ColumnSpace.get_field_name`. -/
def get_field_name (c : ColumnConfig) (day_index total_days : ℕ) : String :=
  if has_transition c day_index total_days TransitionType.SCHEMA_NAME then
    "new-" ++ c.name
  else c.name

/-- Random draw streams consumed while generating one batch of values:
`uniforms` stands for `np.random.rand`, `normals` for `np.random.normal`,
`cat_words` for `ValueGenerator.rand_cat_str`, `phrase_words i n` for
`ValueGenerator.rand_words(n)`, the gates for the one `random.random()`
draw per batch of the zeros/nulls transitions, the coins for the per-value
draws inside `_replace_half`, and `some_coins` for
`random.choice([True, False])`. -/
structure Rand where
  uniforms : ℕ → ℚ
  normals : ℕ → ℚ
  cat_words : ℕ → String
  phrase_words : ℕ → ℕ → String
  zeros_gate : ℚ
  zeros_coins : ℕ → ℚ
  nulls_gate : ℚ
  nulls_coins : ℕ → ℚ
  some_coins : ℕ → Bool

/-- column_space.py `ColumnSpace._generate_word` (the word generator is
always initialised for string-typed columns, so the error path is dead on
the paths reaching this call). -/
def generate_word (c : ColumnConfig) (r : Rand) (i : ℕ)
    (day_index total_days : ℕ) : String :=
  if c.data_type = DataType.STRING_LONG then
    if has_transition c day_index total_days TransitionType.STRING_LONG_TO_SMALL then
      r.cat_words i
    else r.phrase_words i 20
  else if c.data_type = DataType.STRING_CATEGORY then
    if has_transition c day_index total_days TransitionType.STRING_SMALL_TO_LONG then
      r.phrase_words i 5
    else r.cat_words i
  else r.cat_words i

/-- column_space.py `ColumnSpace._generate_numeric_distribution`: first
match wins, in the order INCREMENT, UNIFORM, NORMAL, defaulting to a
uniform draw when no flag is set. -/
def generate_numeric_distribution (c : ColumnConfig) (r : Rand)
    (num_values : ℕ) : List ℚ :=
  if has_distribution c DistributionType.INCREMENT then
    (List.range num_values).map (fun (i : ℕ) => (i : ℚ))
  else if has_distribution c DistributionType.UNIFORM then
    (List.range num_values).map r.uniforms
  else if has_distribution c DistributionType.NORMAL then
    (List.range num_values).map r.normals
  else (List.range num_values).map r.uniforms

/-- Python `str(v)` / f-string rendering of a cell value. -/
def pyStr : Value → String
  | Value.num q => toString q
  | Value.str s => s
  | Value.none => "None"

/-- Scaling of a single value in `_apply_transitions`: numbers are
multiplied by 40, everything else passes through. -/
def scale_value : Value → Value
  | Value.num q => Value.num (q * 40)
  | v => v

/-- column_space.py `ColumnSpace._replace_half`: each value is replaced
independently when its coin exceeds 1/2. -/
def replace_half (coins : ℕ → ℚ) (values : List Value) (new_value : Value) :
    List Value :=
  values.mapIdx (fun i v => if coins i > 1/2 then new_value else v)

/-- Step 1 of `_apply_transitions` (VALUES_SCALE). -/
def apply_scale (c : ColumnConfig) (day_index total_days : ℕ)
    (values : List Value) : List Value :=
  if has_transition c day_index total_days TransitionType.VALUES_SCALE then
    values.map scale_value
  else values

/-- Step 2 of `_apply_transitions` (ZEROS_HIGH): a per-batch gate draw at
least 1/2 replaces roughly half the values with 0. -/
def apply_zeros (c : ColumnConfig) (r : Rand) (day_index total_days : ℕ)
    (values : List Value) : List Value :=
  if has_transition c day_index total_days TransitionType.ZEROS_HIGH then
    if r.zeros_gate ≥ 1/2 then replace_half r.zeros_coins values (Value.num 0)
    else values
  else values

/-- Step 3 of `_apply_transitions` (NULLS_HIGH): like zeros, but the
replacement is the empty string. -/
def apply_nulls (c : ColumnConfig) (r : Rand) (day_index total_days : ℕ)
    (values : List Value) : List Value :=
  if has_transition c day_index total_days TransitionType.NULLS_HIGH then
    if r.nulls_gate ≥ 1/2 then replace_half r.nulls_coins values (Value.str "")
    else values
  else values

/-- Step 4 of `_apply_transitions` (VALUES_SOME_STRINGS, else
VALUES_ALL_STRINGS). -/
def apply_strings (c : ColumnConfig) (r : Rand) (day_index total_days : ℕ)
    (values : List Value) : List Value :=
  if has_transition c day_index total_days TransitionType.VALUES_SOME_STRINGS then
    values.mapIdx (fun i v =>
      if r.some_coins i then Value.str ("sometimes-" ++ pyStr v) else v)
  else if has_transition c day_index total_days TransitionType.VALUES_ALL_STRINGS then
    values.map (fun v => Value.str ("all-" ++ pyStr v))
  else values

/-- column_space.py `ColumnSpace._apply_transitions`: the transform steps
in source order (scale, zeros, nulls, stringification). -/
def apply_transitions (c : ColumnConfig) (r : Rand) (values : List Value)
    (day_index total_days : ℕ) : List Value :=
  apply_strings c r day_index total_days
    (apply_nulls c r day_index total_days
      (apply_zeros c r day_index total_days
        (apply_scale c day_index total_days values)))

/-- column_space.py `ColumnSpace._convert_types`: for INTEGER columns a
non-zero numeric value becomes `int(v * 100)`; everything else passes
through. -/
def convert_types (c : ColumnConfig) (values : List Value) : List Value :=
  if c.data_type = DataType.INTEGER then
    values.map (fun v => match v with
      | Value.num q =>
        if q ≠ 0 then Value.num ((pyInt (q * 100) : ℤ) : ℚ) else Value.num q
      | x => x)
  else values

/-- One iteration body of the while loop in column_space.py
`generate_day_data`: generate `n` raw values for the batch, convert types
on the numeric path, then apply transitions. -/
def generate_batch (c : ColumnConfig) (r : Rand) (day_index total_days n : ℕ) :
    List Value :=
  let batch_values :=
    if c.data_type = DataType.STRING_LONG ∨ c.data_type = DataType.STRING_CATEGORY then
      (List.range n).map (fun i => Value.str (generate_word c r i day_index total_days))
    else
      convert_types c ((generate_numeric_distribution c r n).map Value.num)
  apply_transitions c r batch_values day_index total_days

/-- The while loop of column_space.py `generate_day_data`, with explicit
fuel; each batch uses its own draw streams `rands batch_index`.
`generate_day_data` runs it with fuel `num_values`, which suffices whenever
`batch_size ≥ 1` because every iteration inserts at least one value. -/
def gen_loop (c : ColumnConfig) (rands : ℕ → Rand)
    (day_index total_days batch_size num_values : ℕ) :
    ℕ → ℕ → ℕ → List Value
  | 0, _, _ => []
  | fuel + 1, values_generated, batch_index =>
    if values_generated < num_values then
      let batch_size_actual := min batch_size (num_values - values_generated)
      let batch := generate_batch c (rands batch_index) day_index total_days
        batch_size_actual
      batch ++ gen_loop c rands day_index total_days batch_size num_values fuel
        (values_generated + batch.length) (batch_index + 1)
    else []

/-- column_space.py `ColumnSpace.generate_day_data`: the values inserted,
in order, into the freshly created day cache. -/
def generate_day_data (c : ColumnConfig) (rands : ℕ → Rand)
    (day_index num_values total_days batch_size : ℕ) : List Value :=
  gen_loop c rands day_index total_days batch_size num_values num_values 0 0

/-- Read a day cache by sqlite rowid (1-based): rowid 0 or a position past
the populated range returns no row. -/
def cache_read (cache : List Value) (rowid : ℕ) : Option Value :=
  if rowid = 0 then Option.none else cache.get? (rowid - 1)

/-- Python dict lookup on the cache-handle mapping (last binding wins, as
in a Python dict built by repeated assignment). -/
def lookup_handle (handles : List (String × List Value)) (f : String) :
    Option (List Value) :=
  (handles.reverse.find? (fun p => p.fst == f)).map Prod.snd

namespace CSVWriter

/-- output_writers.py `CSVWriter._get_data_row`: cache hits pass through
`str`, misses and absent handles yield `none_value`. -/
def get_data_row (field_names : List String) (row_index : ℕ)
    (handles : List (String × List Value)) (none_value : Value) : List Value :=
  field_names.map (fun f =>
    match lookup_handle handles f with
    | Option.none => none_value
    | Option.some cache =>
      match cache_read cache row_index with
      | Option.some v => Value.str (pyStr v)
      | Option.none => none_value)

/-- output_writers.py `CSVWriter.write_day`: the header row plus the data
rows emitted for row positions 1..rows_per_day; a row is skipped iff it is
empty or equals `[None]`; `none_value` is the empty string. -/
def write_day (field_names : List String)
    (handles : List (String × List Value)) (rows_per_day : ℕ) :
    List String × List (List Value) :=
  (field_names,
    ((List.range rows_per_day).map (fun i => i + 1)).filterMap (fun row_index =>
      let row := get_data_row field_names row_index handles (Value.str "")
      if row ≠ [] ∧ row ≠ [Value.none] then Option.some row else Option.none))

end CSVWriter

namespace JSONWriter

/-- output_writers.py `JSONWriter._get_data_row`: like the CSV variant but
keeping the original value type. -/
def get_data_row (field_names : List String) (row_index : ℕ)
    (handles : List (String × List Value)) (none_value : Value) : List Value :=
  field_names.map (fun f =>
    match lookup_handle handles f with
    | Option.none => none_value
    | Option.some cache =>
      match cache_read cache row_index with
      | Option.some v => v
      | Option.none => none_value)

/-- output_writers.py `JSONWriter.write_day`: the array of records written
for row positions 1..rows_per_day; a row is skipped iff it is empty or
equals `[None]`; each kept row is zipped with the field names. -/
def write_day (field_names : List String)
    (handles : List (String × List Value)) (rows_per_day : ℕ) :
    List (List (String × Value)) :=
  ((List.range rows_per_day).map (fun i => i + 1)).filterMap (fun row_index =>
    let row := get_data_row field_names row_index handles Value.none
    if row ≠ [] ∧ row ≠ [Value.none] then Option.some (field_names.zip row)
    else Option.none)

end JSONWriter

namespace JSONLinesWriter

/-- output_writers.py `JSONLinesWriter._get_data_row` (identical to the
JSON variant). -/
def get_data_row (field_names : List String) (row_index : ℕ)
    (handles : List (String × List Value)) (none_value : Value) : List Value :=
  field_names.map (fun f =>
    match lookup_handle handles f with
    | Option.none => none_value
    | Option.some cache =>
      match cache_read cache row_index with
      | Option.some v => v
      | Option.none => none_value)

/-- output_writers.py `JSONLinesWriter.write_day`: one record per kept row,
with the same skip rule as the JSON writer. -/
def write_day (field_names : List String)
    (handles : List (String × List Value)) (rows_per_day : ℕ) :
    List (List (String × Value)) :=
  ((List.range rows_per_day).map (fun i => i + 1)).filterMap (fun row_index =>
    let row := get_data_row field_names row_index handles Value.none
    if row ≠ [] ∧ row ≠ [Value.none] then Option.some (field_names.zip row)
    else Option.none)

end JSONLinesWriter

/-- exceptions.py error kinds relevant to the orchestration pipeline. -/
inductive GenError where
  | cache_error (msg : String)
  | data_generation_error (msg : String)
  | output_error (msg : String)
deriving DecidableEq

/-- The message carried by an error. -/
def GenError.message : GenError → String
  | GenError.cache_error m => m
  | GenError.data_generation_error m => m
  | GenError.output_error m => m

/-- The three concrete writer strategies of output_writers.py. -/
inductive Writer where
  | csv
  | json
  | jsonl
deriving DecidableEq

/-- output_writers.py `OutputWriterFactory.create_writer`: unknown format
names raise OutputError. -/
def create_writer (format_name : String) : Except GenError Writer :=
  if format_name = "csv" then Except.ok Writer.csv
  else if format_name = "json" then Except.ok Writer.json
  else if format_name = "jsonl" then Except.ok Writer.jsonl
  else Except.error (GenError.output_error
    ("Unsupported output format: " ++ format_name))

/-- A day's output file, as data: the CSV header and rows, or the JSON /
JSON-lines records. -/
inductive DayFile where
  | csv (header : List String) (rows : List (List Value))
  | json (records : List (List (String × Value)))
  | jsonl (records : List (List (String × Value)))
deriving DecidableEq

/-- Dynamic dispatch of `write_day` over the selected writer. -/
def writer_write_day (w : Writer) (field_names : List String)
    (handles : List (String × List Value)) (rows_per_day : ℕ) : DayFile :=
  match w with
  | Writer.csv =>
    let out := CSVWriter.write_day field_names handles rows_per_day
    DayFile.csv out.fst out.snd
  | Writer.json => DayFile.json (JSONWriter.write_day field_names handles rows_per_day)
  | Writer.jsonl => DayFile.jsonl (JSONLinesWriter.write_day field_names handles rows_per_day)

/-- data_generator.py `DataGenerator._open_cache_connections`: the handle
mapping is keyed by each column's configured `name`; a missing cache raises
CacheError. `store` maps (configured column name, day index) to the cache
contents on disk. -/
def open_cache_connections (store : String → ℕ → Option (List Value))
    (day_index : ℕ) :
    List ColumnConfig → Except GenError (List (String × List Value))
  | [] => Except.ok []
  | c :: rest =>
    match store c.name day_index with
    | Option.none =>
      Except.error (GenError.cache_error ("Cache file not found: ." ++ c.name))
    | Option.some cache =>
      match open_cache_connections store day_index rest with
      | Except.error e => Except.error e
      | Except.ok handles => Except.ok ((c.name, cache) :: handles)

/-- One day of data_generator.py `DataGenerator._write_output_data`: the
field names passed to the writer are the per-day effective names, while the
cache handles are keyed by configured names; failures are re-raised as
OutputError. -/
def write_day_output (w : Writer) (cols : List ColumnConfig)
    (store : String → ℕ → Option (List Value))
    (day_index total_days rows_for_day : ℕ) : Except GenError DayFile :=
  let field_names := cols.map (fun c => get_field_name c day_index total_days)
  match open_cache_connections store day_index cols with
  | Except.error _ =>
    Except.error (GenError.output_error
      ("Failed to write output for day " ++ toString day_index))
  | Except.ok handles => Except.ok (writer_write_day w field_names handles rows_for_day)

/-- The day loop of `_write_output_data`: one output file per day, stopping
at the first failure; the first component lists the files produced. -/
def write_output_days (w : Writer) (cols : List ColumnConfig)
    (store : String → ℕ → Option (List Value)) (rows_map : ℕ → ℕ)
    (total_days : ℕ) : List ℕ → List DayFile × Except GenError Unit
  | [] => ([], Except.ok ())
  | d :: rest =>
    match write_day_output w cols store d total_days (rows_map d) with
    | Except.error e => ([], Except.error e)
    | Except.ok file =>
      let out := write_output_days w cols store rows_map total_days rest
      (file :: out.fst, out.snd)

/-- data_generator.py `DataGenerator._write_output_data`: create the writer
first (a bad format name fails here, before any file is produced), then
write one file per day. -/
def write_output_data (format_name : String) (cols : List ColumnConfig)
    (store : String → ℕ → Option (List Value)) (rows_map : ℕ → ℕ)
    (num_days : ℕ) : List DayFile × Except GenError Unit :=
  match create_writer format_name with
  | Except.error e => ([], Except.error e)
  | Except.ok w => write_output_days w cols store rows_map num_days (List.range num_days)

/-- The two `random.random()` streams consumed per day by the row count
planner: `u1` for the variation factor, `u2` for the anomaly draw. -/
structure RunRand where
  u1 : ℕ → ℚ
  u2 : ℕ → ℚ

/-- data_generator.py `DataGenerator._generate_rows_per_day_map`: variation
factor, `int` truncation, optional anomalous reduction, and a clamp to a
minimum of one row. -/
def generate_rows_per_day_map (num_days approx_rows_per_day : ℕ)
    (variation reduction_probability reduction_factor : ℚ) (r : RunRand) :
    List ℕ :=
  (List.range num_days).map (fun day =>
    let variation_factor : ℚ := 1 + (r.u1 day - 1/2) * 2 * variation
    let num_rows : ℤ := pyInt ((approx_rows_per_day : ℚ) * variation_factor)
    let num_rows : ℤ :=
      if r.u2 day > reduction_probability then
        pyInt ((num_rows : ℚ) * reduction_factor)
      else num_rows
    (max 1 num_rows).toNat)

/-- Modelled from the spec: rounding to the nearest integer, half away from
zero upward (`Int.fdiv` is floor division, so this is the floor of
`q + 1/2`); used only by `spec_rows_per_day_map`. -/
def spec_round (q : ℚ) : ℤ := (q + 1/2).num.fdiv ((q + 1/2).den : ℤ)

/-- Modelled from the spec: the Row Count Planner exactly as §4.4 words it,
with `rows = round(base_rows_per_day * f)` in step 1; kept only to compare
with `generate_rows_per_day_map`, whose step 1 truncates with `int`. -/
def spec_rows_per_day_map (num_days approx_rows_per_day : ℕ)
    (variation reduction_probability reduction_factor : ℚ) (r : RunRand) :
    List ℕ :=
  (List.range num_days).map (fun day =>
    let variation_factor : ℚ := 1 + (r.u1 day - 1/2) * 2 * variation
    let num_rows : ℤ := spec_round ((approx_rows_per_day : ℚ) * variation_factor)
    let num_rows : ℤ :=
      if r.u2 day > reduction_probability then
        pyInt ((num_rows : ℚ) * reduction_factor)
      else num_rows
    (max 1 num_rows).toNat)

/-- Modelled from the spec: §4.2's claimed post-sampling transform order
(scale, zeros, nulls, type coercion, stringification) over a raw numeric
batch; to be compared with `generate_batch`, which runs `convert_types`
before all transitions. -/
def spec_order_batch (c : ColumnConfig) (r : Rand) (day_index total_days : ℕ)
    (raw : List ℚ) : List Value :=
  apply_strings c r day_index total_days
    (convert_types c
      (apply_nulls c r day_index total_days
        (apply_zeros c r day_index total_days
          (apply_scale c day_index total_days (raw.map Value.num)))))

/-- data_generator.py `DataGenerator._generate_column_data`, single-worker
path, day loop of one column: cache and I/O failures of
`generate_day_data` are abstracted as the `gen_outcome` oracle
(column index, day index ↦ optional raised error). -/
def generate_days_loop (gen_outcome : ℕ → ℕ → Option GenError) (ci : ℕ) :
    List ℕ → Except GenError Unit
  | [] => Except.ok ()
  | d :: rest =>
    match gen_outcome ci d with
    | Option.some e => Except.error e
    | Option.none => generate_days_loop gen_outcome ci rest

/-- Column loop of `_generate_column_data`: drive every column through all
days, propagating the first failure. -/
def generate_columns_loop (gen_outcome : ℕ → ℕ → Option GenError)
    (num_days : ℕ) : List ℕ → Except GenError Unit
  | [] => Except.ok ()
  | ci :: rest =>
    match generate_days_loop gen_outcome ci (List.range num_days) with
    | Except.error e => Except.error e
    | Except.ok _ => generate_columns_loop gen_outcome num_days rest

/-- data_generator.py `DataGenerator._generate_column_data`. -/
def generate_column_data (gen_outcome : ℕ → ℕ → Option GenError)
    (num_cols num_days : ℕ) : Except GenError Unit :=
  generate_columns_loop gen_outcome num_days (List.range num_cols)

/-- The metrics fields of data_generator.py relevant to the pipeline. -/
structure Metrics where
  total_columns : ℕ
  files_written : ℕ
  errors_encountered : ℕ
deriving DecidableEq

/-- data_generator.py `DataGenerator.generate`: plan row counts, generate
all columns, and only then write output files; any failure is re-raised as
DataGenerationError, and the first component records the output files
actually produced by the run. -/
def generate (format_name : String) (cols : List ColumnConfig)
    (num_days approx_rows_per_day : ℕ)
    (variation reduction_probability reduction_factor : ℚ) (rr : RunRand)
    (gen_outcome : ℕ → ℕ → Option GenError)
    (store : String → ℕ → Option (List Value)) :
    List DayFile × Except GenError Metrics :=
  let rows_list := generate_rows_per_day_map num_days approx_rows_per_day
    variation reduction_probability reduction_factor rr
  let rows_map := fun d => rows_list.getD d 0
  match generate_column_data gen_outcome cols.length num_days with
  | Except.error e =>
    ([], Except.error (GenError.data_generation_error
      ("Data generation failed: " ++ e.message)))
  | Except.ok _ =>
    match write_output_data format_name cols store rows_map num_days with
    | (files, Except.error e) =>
      (files, Except.error (GenError.data_generation_error
        ("Data generation failed: " ++ e.message)))
    | (files, Except.ok _) =>
      (files, Except.ok ⟨cols.length, files.length, 0⟩)

/-- Constant draw streams used for concrete evaluations in witnesses and
counterexamples. -/
def rand_const (q : ℚ) : Rand :=
  ⟨fun _ => q, fun _ => q, fun _ => "w", fun _ _ => "p", 0, fun _ => 0, 0,
    fun _ => 0, fun _ => false⟩

/-- A column whose schema-name transition is active from day 0. -/
def col_schema : ColumnConfig :=
  ⟨"x", DataType.INTEGER, 0, TransitionType.SCHEMA_NAME, DistributionType.INCREMENT⟩

/-- An INTEGER column with the INCREMENT distribution and no transitions. -/
def col_id_int : ColumnConfig := ⟨"id", DataType.INTEGER, 0, 0, DistributionType.INCREMENT⟩

/-- A FLOAT column with the INCREMENT distribution and no transitions. -/
def col_float_inc : ColumnConfig := ⟨"f", DataType.FLOAT, 0, 0, DistributionType.INCREMENT⟩

/-- An INTEGER UNIFORM column whose value-scaling transition is active from
day 0. -/
def col_scale_int : ColumnConfig :=
  ⟨"n", DataType.INTEGER, 0, TransitionType.VALUES_SCALE, DistributionType.UNIFORM⟩

/-- A one-column cache store: column "x" holds the single value 7 on day 0. -/
def store_x : String → ℕ → Option (List Value) :=
  fun nm d => if nm = "x" ∧ d = 0 then Option.some [Value.num 7] else Option.none

deriving instance DecidableEq for Except

/-! Helper lemmas. -/

lemma pyInt_eq_floor {q : ℚ} (hq : 0 ≤ q) : pyInt q = ⌊q⌋ := by
  unfold pyInt
  rw [Int.tdiv_eq_ediv (Rat.num_nonneg.mpr hq) (Int.natCast_nonneg _), Rat.floor_def]

lemma has_transition_iff (c : ColumnConfig) (hperc : 0 ≤ c.transition_percentage)
    (day_index total_days mask : ℕ) :
    has_transition c day_index total_days mask = true ↔
      (⌊(total_days : ℚ) * c.transition_percentage⌋ ≤ (day_index : ℤ) ∧
        c.transition_type &&& mask ≠ 0) := by
  have hq : (0:ℚ) ≤ (total_days : ℚ) * c.transition_percentage :=
    mul_nonneg (Nat.cast_nonneg _) hperc
  unfold has_transition
  rw [pyInt_eq_floor hq]
  dsimp only
  split_ifs with hlt
  · simp only [Bool.false_eq_true, false_iff]
    intro h
    exact absurd h.1 (not_le.mpr hlt)
  · rw [bne_iff_ne]
    exact ⟨fun h => ⟨not_lt.mp hlt, h⟩, fun h => h.2⟩

lemma has_transition_frac_one (c : ColumnConfig)
    (hperc : c.transition_percentage = 1) (total_days day_index : ℕ)
    (hd : day_index < total_days) (mask : ℕ) :
    has_transition c day_index total_days mask = false := by
  unfold has_transition
  rw [hperc, mul_one, pyInt_eq_floor (Nat.cast_nonneg _), Int.floor_natCast]
  rw [if_pos (by exact_mod_cast hd)]

lemma apply_transitions_of_inactive (c : ColumnConfig) (r : Rand)
    (values : List Value) (day_index total_days : ℕ)
    (h : ∀ m, has_transition c day_index total_days m = false) :
    apply_transitions c r values day_index total_days = values := by
  simp [apply_transitions, apply_scale, apply_zeros, apply_nulls, apply_strings, h]

/-- C6: transition activation is monotonic in the day index, and a flag is
active on day `d` iff `d` is at least `floor(total_days * transition_fraction)`
and the flag bit is set in the column's transition mask, evaluated
independently per flag. -/
theorem transition_activation_monotone (c : ColumnConfig)
    (hperc : 0 ≤ c.transition_percentage) (total_days : ℕ) (_ht : 0 < total_days)
    (mask : ℕ) :
    (∀ d d' : ℕ, d ≤ d' → has_transition c d total_days mask = true →
      has_transition c d' total_days mask = true) ∧
    (∀ d : ℕ, has_transition c d total_days mask = true ↔
      (⌊(total_days : ℚ) * c.transition_percentage⌋ ≤ (d : ℤ) ∧
        c.transition_type &&& mask ≠ 0)) := by
  refine ⟨?_, fun d => has_transition_iff c hperc d total_days mask⟩
  intro d d' hdd h
  rw [has_transition_iff c hperc] at h ⊢
  exact ⟨le_trans h.1 (by exact_mod_cast hdd), h.2⟩

/-- Witness for C6 at the default "zeroes1" column shape: transition
fraction 0.6 over 10 days, ZEROS_HIGH flag. -/
theorem transition_activation_monotone_witness :
    (0:ℚ) ≤ 3/5 ∧ 0 < 10 ∧
      (has_transition ⟨"zeroes1", DataType.INTEGER, 3/5, 256, 2⟩ 7 10 256 = true ↔
        (⌊(10 : ℚ) * (3/5)⌋ ≤ (7 : ℤ) ∧ 256 &&& 256 ≠ 0)) :=
  ⟨by decide, by decide,
    (transition_activation_monotone ⟨"zeroes1", DataType.INTEGER, 3/5, 256, 2⟩
      (by decide) 10 (by decide) 256).2 7⟩

/-- C10: a column constructed with transition fraction exactly 1 passes
validation, and none of its transition flags is ever active on any day of
the run, so neither its values nor its field name is modified. -/
theorem transition_fraction_one_is_inert (c : ColumnConfig)
    (hperc : c.transition_percentage = 1) (total_days : ℕ) (_ht : 0 < total_days)
    (day_index : ℕ) (hd : day_index < total_days) (mask : ℕ) (r : Rand)
    (values : List Value) :
    ColumnConfig.post_init c = Except.ok c ∧
    has_transition c day_index total_days mask = false ∧
    get_field_name c day_index total_days = c.name ∧
    apply_transitions c r values day_index total_days = values := by
  have hall : ∀ m, has_transition c day_index total_days m = false :=
    fun m => has_transition_frac_one c hperc total_days day_index hd m
  refine ⟨?_, hall mask, ?_, apply_transitions_of_inactive c r values _ _ hall⟩
  · simp [ColumnConfig.post_init, hperc]
  · simp [get_field_name, hall]

/-- Witness for C10: a FLOAT column with every transition bit set but
fraction 1, over 5 days. -/
theorem transition_fraction_one_is_inert_witness :
    (⟨"steady", DataType.FLOAT, 1, 511, 0⟩ : ColumnConfig).transition_percentage = 1 ∧
    0 < 5 ∧ 4 < 5 ∧
    (ColumnConfig.post_init ⟨"steady", DataType.FLOAT, 1, 511, 0⟩
        = Except.ok ⟨"steady", DataType.FLOAT, 1, 511, 0⟩ ∧
      has_transition ⟨"steady", DataType.FLOAT, 1, 511, 0⟩ 4 5 16 = false ∧
      get_field_name ⟨"steady", DataType.FLOAT, 1, 511, 0⟩ 4 5 = "steady" ∧
      apply_transitions ⟨"steady", DataType.FLOAT, 1, 511, 0⟩ (rand_const 0)
          [Value.num 3] 4 5 = [Value.num 3]) :=
  ⟨by decide, by decide, by decide,
    transition_fraction_one_is_inert ⟨"steady", DataType.FLOAT, 1, 511, 0⟩
      (by decide) 5 (by decide) 4 (by decide) 16 (rand_const 0) [Value.num 3]⟩

lemma length_replace_half (coins : ℕ → ℚ) (values : List Value) (nv : Value) :
    (replace_half coins values nv).length = values.length := by
  simp [replace_half]

lemma length_apply_scale (c : ColumnConfig) (d t : ℕ) (values : List Value) :
    (apply_scale c d t values).length = values.length := by
  unfold apply_scale
  split_ifs <;> simp

lemma length_apply_zeros (c : ColumnConfig) (r : Rand) (d t : ℕ)
    (values : List Value) :
    (apply_zeros c r d t values).length = values.length := by
  unfold apply_zeros
  split_ifs <;> simp [length_replace_half]

lemma length_apply_nulls (c : ColumnConfig) (r : Rand) (d t : ℕ)
    (values : List Value) :
    (apply_nulls c r d t values).length = values.length := by
  unfold apply_nulls
  split_ifs <;> simp [length_replace_half]

lemma length_apply_strings (c : ColumnConfig) (r : Rand) (d t : ℕ)
    (values : List Value) :
    (apply_strings c r d t values).length = values.length := by
  unfold apply_strings
  split_ifs <;> simp

lemma length_apply_transitions (c : ColumnConfig) (r : Rand) (d t : ℕ)
    (values : List Value) :
    (apply_transitions c r values d t).length = values.length := by
  unfold apply_transitions
  rw [length_apply_strings, length_apply_nulls, length_apply_zeros,
    length_apply_scale]

lemma length_convert_types (c : ColumnConfig) (values : List Value) :
    (convert_types c values).length = values.length := by
  unfold convert_types
  split_ifs <;> simp

lemma length_generate_numeric_distribution (c : ColumnConfig) (r : Rand)
    (n : ℕ) : (generate_numeric_distribution c r n).length = n := by
  unfold generate_numeric_distribution
  split_ifs <;> rw [List.length_map, List.length_range]

lemma length_generate_batch (c : ColumnConfig) (r : Rand) (d t n : ℕ) :
    (generate_batch c r d t n).length = n := by
  unfold generate_batch
  rw [length_apply_transitions]
  split_ifs
  · simp
  · rw [length_convert_types, List.length_map, length_generate_numeric_distribution]

lemma gen_loop_length (c : ColumnConfig) (rands : ℕ → Rand)
    (day_index total_days batch_size num_values : ℕ) (hb : 1 ≤ batch_size) :
    ∀ fuel values_generated batch_index,
      num_values - values_generated ≤ fuel →
      (gen_loop c rands day_index total_days batch_size num_values fuel
          values_generated batch_index).length
        = num_values - values_generated := by
  intro fuel
  induction fuel with
  | zero =>
    intro vg bi h
    simp only [gen_loop, List.length_nil]
    omega
  | succ f ih =>
    intro vg bi h
    rw [gen_loop]
    by_cases hvg : vg < num_values
    · rw [if_pos hvg]
      have hbatch := length_generate_batch c (rands bi) day_index total_days
        (min batch_size (num_values - vg))
      have h1 : batch_size ⊓ (num_values - vg) ≤ num_values - vg :=
        Nat.min_le_right _ _
      have h2 : 1 ≤ batch_size ⊓ (num_values - vg) := le_min hb (by omega)
      rw [List.length_append, hbatch]
      rw [ih (vg + batch_size ⊓ (num_values - vg)) (bi + 1) (by omega)]
      omega
    · rw [if_neg hvg]
      simp only [List.length_nil]
      omega

lemma gen_loop_stop (c : ColumnConfig) (rands : ℕ → Rand)
    (day_index total_days batch_size num_values fuel vg bi : ℕ)
    (h : ¬ vg < num_values) :
    gen_loop c rands day_index total_days batch_size num_values fuel vg bi = [] := by
  cases fuel <;> simp [gen_loop, h]

/-- C5: the generation loop inserts exactly `num_values` values into the
day cache, at sequential 1-based rowid positions. -/
theorem generate_day_data_exact_count (c : ColumnConfig) (rands : ℕ → Rand)
    (day_index num_values total_days batch_size : ℕ)
    (hb : 1 ≤ batch_size) (hn : 1 ≤ num_values) :
    (generate_day_data c rands day_index num_values total_days batch_size).length
        = num_values ∧
    ∀ p : ℕ, 1 ≤ p → p ≤ num_values →
      (cache_read (generate_day_data c rands day_index num_values total_days
          batch_size) p).isSome = true := by
  have hlen : (generate_day_data c rands day_index num_values total_days
      batch_size).length = num_values := by
    unfold generate_day_data
    rw [gen_loop_length c rands day_index total_days batch_size num_values hb
      num_values 0 0 (by omega)]
    omega
  refine ⟨hlen, ?_⟩
  intro p hp1 hp2
  unfold cache_read
  rw [if_neg (by omega)]
  have hlt : p - 1 < (generate_day_data c rands day_index num_values total_days
      batch_size).length := by omega
  simp [List.get?_eq_getElem?, List.getElem?_eq_getElem hlt]

/-- Witness for C5: three values in batches of two. -/
theorem generate_day_data_exact_count_witness :
    1 ≤ 2 ∧ 1 ≤ 3 ∧
    ((generate_day_data col_float_inc (fun _ => rand_const 0) 0 3 1 2).length = 3 ∧
      ∀ p : ℕ, 1 ≤ p → p ≤ 3 →
        (cache_read (generate_day_data col_float_inc (fun _ => rand_const 0) 0 3 1 2)
            p).isSome = true) :=
  ⟨by decide, by decide,
    generate_day_data_exact_count col_float_inc (fun _ => rand_const 0) 0 3 1 2
      (by decide) (by decide)⟩

lemma generate_batch_float_increment (c : ColumnConfig)
    (hfloat : c.data_type = DataType.FLOAT)
    (hinc : has_distribution c DistributionType.INCREMENT = true)
    (r : Rand) (d t n : ℕ) (hno : ∀ m, has_transition c d t m = false) :
    generate_batch c r d t n = (List.range n).map (fun (i : ℕ) => Value.num i) := by
  unfold generate_batch
  rw [apply_transitions_of_inactive c r _ _ _ hno]
  rw [if_neg (by simp [hfloat])]
  unfold convert_types
  rw [if_neg (by simp [hfloat])]
  unfold generate_numeric_distribution
  rw [if_pos hinc, List.map_map]
  rfl

/-- C4 amended: for a FLOAT column with the INCREMENT distribution and no
transition active on day `d`, the day's cached values are `0..n-1` provided
the day's row count fits in a single generation batch; each batch restarts
the sequence at 0, and INTEGER columns additionally coerce each non-zero
value `k` to `100 * k`. -/
theorem increment_day_values_float_within_batch (c : ColumnConfig)
    (hfloat : c.data_type = DataType.FLOAT)
    (hinc : has_distribution c DistributionType.INCREMENT = true)
    (rands : ℕ → Rand) (day_index num_values total_days batch_size : ℕ)
    (hno : ∀ m, has_transition c day_index total_days m = false)
    (_hb : 1 ≤ batch_size) (hnb : num_values ≤ batch_size) :
    generate_day_data c rands day_index num_values total_days batch_size
      = (List.range num_values).map (fun (i : ℕ) => Value.num i) := by
  unfold generate_day_data
  cases num_values with
  | zero => simp [gen_loop]
  | succ k =>
    rw [gen_loop, if_pos (by omega : 0 < k + 1)]
    simp only [Nat.sub_zero]
    rw [Nat.min_eq_right hnb]
    rw [generate_batch_float_increment c hfloat hinc (rands 0) day_index
      total_days (k + 1) hno]
    rw [gen_loop_stop c rands day_index total_days batch_size (k + 1) _ _ _
      (by rw [List.length_map, List.length_range]; omega)]
    simp

/-- Witness for C4 amended: a FLOAT INCREMENT column, 3 rows, batch 4. -/
theorem increment_day_values_float_within_batch_witness :
    col_float_inc.data_type = DataType.FLOAT ∧
    has_distribution col_float_inc DistributionType.INCREMENT = true ∧
    (∀ m, has_transition col_float_inc 0 1 m = false) ∧ 1 ≤ 4 ∧ 3 ≤ 4 ∧
    generate_day_data col_float_inc (fun _ => rand_const 0) 0 3 1 4
      = (List.range 3).map (fun (i : ℕ) => Value.num i) :=
  ⟨by decide, by decide,
    fun m => by simp [has_transition, col_float_inc, pyInt],
    by decide, by decide,
    increment_day_values_float_within_batch col_float_inc (by decide) (by decide)
      (fun _ => rand_const 0) 0 3 1 4
      (fun m => by simp [has_transition, col_float_inc, pyInt]) (by decide) (by decide)⟩

/-- C4 counterexample: as stated the claim fails both for INTEGER columns
(type coercion turns the increment 1 into 100 even within one batch) and
for row counts beyond the batch size (the sequence restarts at 0 in each
batch). -/
theorem increment_sequence_counterexample :
    generate_day_data col_id_int (fun _ => rand_const 0) 0 2 1 10000
        = [Value.num 0, Value.num 100] ∧
    [Value.num 0, Value.num 100] ≠ [Value.num 0, Value.num 1] ∧
    generate_day_data col_float_inc (fun _ => rand_const 0) 0 3 1 2
        = [Value.num 0, Value.num 1, Value.num 0] ∧
    [Value.num 0, Value.num 1, Value.num 0] ≠ [Value.num 0, Value.num 1, Value.num 2] :=
  ⟨by decide, by decide, by decide, by decide⟩

lemma apply_scale_of_active (c : ColumnConfig) (d t : ℕ) (values : List Value)
    (h : has_transition c d t TransitionType.VALUES_SCALE = true) :
    apply_scale c d t values = values.map scale_value := by
  simp [apply_scale, h]

lemma apply_zeros_of_inactive (c : ColumnConfig) (r : Rand) (d t : ℕ)
    (values : List Value)
    (h : has_transition c d t TransitionType.ZEROS_HIGH = false) :
    apply_zeros c r d t values = values := by
  simp [apply_zeros, h]

lemma apply_nulls_of_inactive (c : ColumnConfig) (r : Rand) (d t : ℕ)
    (values : List Value)
    (h : has_transition c d t TransitionType.NULLS_HIGH = false) :
    apply_nulls c r d t values = values := by
  simp [apply_nulls, h]

lemma apply_strings_of_inactive (c : ColumnConfig) (r : Rand) (d t : ℕ)
    (values : List Value)
    (hsome : has_transition c d t TransitionType.VALUES_SOME_STRINGS = false)
    (hall : has_transition c d t TransitionType.VALUES_ALL_STRINGS = false) :
    apply_strings c r d t values = values := by
  simp [apply_strings, hsome, hall]

/-- C3 amended: in column_space.py the type coercion of `_convert_types`
runs before `_apply_transitions`, not between the null transforms and the
stringification; so for an INTEGER UNIFORM column with only value scaling
active, each raw draw `q` is first truncated as `int(q * 100)` and the
result is then scaled by 40. -/
theorem convert_types_precedes_transitions (c : ColumnConfig)
    (hint : c.data_type = DataType.INTEGER)
    (hincf : has_distribution c DistributionType.INCREMENT = false)
    (huni : has_distribution c DistributionType.UNIFORM = true)
    (r : Rand) (day_index total_days n : ℕ)
    (hscale : has_transition c day_index total_days TransitionType.VALUES_SCALE = true)
    (hzeros : has_transition c day_index total_days TransitionType.ZEROS_HIGH = false)
    (hnulls : has_transition c day_index total_days TransitionType.NULLS_HIGH = false)
    (hsome : has_transition c day_index total_days TransitionType.VALUES_SOME_STRINGS = false)
    (hall : has_transition c day_index total_days TransitionType.VALUES_ALL_STRINGS = false) :
    generate_batch c r day_index total_days n
      = (List.range n).map (fun (i : ℕ) =>
          if r.uniforms i ≠ 0 then
            Value.num (((pyInt (r.uniforms i * 100) : ℤ) : ℚ) * 40)
          else Value.num (r.uniforms i * 40)) := by
  unfold generate_batch
  rw [if_neg (by simp [hint])]
  unfold generate_numeric_distribution
  rw [if_neg (by simp [hincf]), if_pos huni]
  unfold convert_types
  rw [if_pos hint]
  unfold apply_transitions
  dsimp only
  rw [apply_scale_of_active c day_index total_days _ hscale,
    apply_zeros_of_inactive c r day_index total_days _ hzeros,
    apply_nulls_of_inactive c r day_index total_days _ hnulls,
    apply_strings_of_inactive c r day_index total_days _ hsome hall]
  rw [List.map_map, List.map_map, List.map_map]
  apply List.map_congr_left
  intro i _
  simp only [Function.comp_apply]
  by_cases hq : r.uniforms i = 0
  · rw [if_neg (by simp [hq])]
    simp [hq, scale_value]
  · rw [if_pos hq, if_pos hq]
    simp [scale_value]

/-- Witness for C3 amended: the scaled INTEGER column at the single raw
draw 11/1000 yields int(0.011 * 100) * 40 = 40. -/
theorem convert_types_precedes_transitions_witness :
    col_scale_int.data_type = DataType.INTEGER ∧
    has_distribution col_scale_int DistributionType.INCREMENT = false ∧
    has_distribution col_scale_int DistributionType.UNIFORM = true ∧
    has_transition col_scale_int 0 1 TransitionType.VALUES_SCALE = true ∧
    has_transition col_scale_int 0 1 TransitionType.ZEROS_HIGH = false ∧
    has_transition col_scale_int 0 1 TransitionType.NULLS_HIGH = false ∧
    has_transition col_scale_int 0 1 TransitionType.VALUES_SOME_STRINGS = false ∧
    has_transition col_scale_int 0 1 TransitionType.VALUES_ALL_STRINGS = false ∧
    generate_batch col_scale_int (rand_const (11/1000)) 0 1 1
      = (List.range 1).map (fun (i : ℕ) =>
          if (rand_const (11/1000)).uniforms i ≠ 0 then
            Value.num (((pyInt ((rand_const (11/1000)).uniforms i * 100) : ℤ) : ℚ) * 40)
          else Value.num ((rand_const (11/1000)).uniforms i * 40)) :=
  ⟨by decide, by decide, by decide, by decide, by decide, by decide, by decide,
    by decide,
    convert_types_precedes_transitions col_scale_int (by decide) (by decide)
      (by decide) (rand_const (11/1000)) 0 1 1 (by decide) (by decide) (by decide)
      (by decide) (by decide)⟩

/-- C3 counterexample: with the 0.011 raw draw, the code produces
int(0.011 * 100) * 40 = 40, while the claimed order (scale, then coerce)
would produce int(0.011 * 40 * 100) = 44. -/
theorem transform_order_counterexample :
    generate_batch col_scale_int (rand_const (11/1000)) 0 1 1 = [Value.num 40] ∧
    spec_order_batch col_scale_int (rand_const (11/1000)) 0 1 [11/1000]
        = [Value.num 44] ∧
    ([Value.num 40] : List Value) ≠ [Value.num 44] :=
  ⟨by decide, by decide, by decide⟩

lemma prepend_new_ne (s : String) : ("new-" ++ s) ≠ s := by
  intro h
  have h2 := congrArg String.length h
  rw [String.length_append] at h2
  have h4 : ("new-" : String).length = 4 := rfl
  omega

lemma lookup_handle_single_miss (nm f : String) (cache : List Value)
    (h : nm ≠ f) : lookup_handle [(nm, cache)] f = Option.none := by
  unfold lookup_handle
  rw [List.reverse_singleton]
  rw [List.find?_cons_of_neg _ (by simpa using h)]
  rfl

lemma open_cache_connections_single (store : String → ℕ → Option (List Value))
    (day_index : ℕ) (c : ColumnConfig) (cache : List Value)
    (hstore : store c.name day_index = Option.some cache) :
    open_cache_connections store day_index [c] = Except.ok [(c.name, cache)] := by
  unfold open_cache_connections
  rw [hstore]
  rfl

/-- C1 amended: the row consolidator looks caches up by the *effective*
field name while the handle mapping is keyed by the *configured* name, so
when the schema-name transition is active the lookup misses, every field of
that column resolves to the null marker, and with a single such column
every row is `[None]` and is dropped — the column's generated values never
appear in the output, under the prefixed name or otherwise. -/
theorem schema_rename_hides_column_values (c : ColumnConfig)
    (store : String → ℕ → Option (List Value)) (day_index total_days : ℕ)
    (cache : List Value) (hstore : store c.name day_index = Option.some cache)
    (hschema : has_transition c day_index total_days TransitionType.SCHEMA_NAME = true)
    (rows_for_day : ℕ) :
    write_day_output Writer.json [c] store day_index total_days rows_for_day
      = Except.ok (DayFile.json []) := by
  unfold write_day_output
  dsimp only
  rw [open_cache_connections_single store day_index c cache hstore]
  unfold writer_write_day
  have hfield : get_field_name c day_index total_days = "new-" ++ c.name := by
    simp [get_field_name, hschema]
  rw [List.map_singleton, hfield]
  dsimp only
  suffices h : JSONWriter.write_day ["new-" ++ c.name] [(c.name, cache)]
      rows_for_day = [] by rw [h]
  unfold JSONWriter.write_day
  apply List.filterMap_eq_nil_iff.mpr
  intro ri _
  have hrow : JSONWriter.get_data_row ["new-" ++ c.name] ri [(c.name, cache)]
      Value.none = [Value.none] := by
    unfold JSONWriter.get_data_row
    rw [List.map_singleton]
    rw [lookup_handle_single_miss c.name ("new-" ++ c.name) cache
      (fun heq => prepend_new_ne c.name heq.symm)]
  rw [hrow]
  rw [if_neg (by simp)]

/-- Witness for C1 amended: the concrete schema-renamed column "x" with a
cached value 7 produces an empty JSON day file. -/
theorem schema_rename_hides_column_values_witness :
    store_x col_schema.name 0 = Option.some [Value.num 7] ∧
    has_transition col_schema 0 1 TransitionType.SCHEMA_NAME = true ∧
    write_day_output Writer.json [col_schema] store_x 0 1 1
      = Except.ok (DayFile.json []) :=
  ⟨by decide, by decide,
    schema_rename_hides_column_values col_schema store_x 0 1 [Value.num 7]
      (by decide) (by decide) 1⟩

/-- C1 counterexample: with the schema-name transition active, the value 7
generated for column "x" does not appear in the day's output under the
prefixed name "new-x" (the whole day output is empty), contradicting the
claim that the cache is located by the configured name. -/
theorem schema_rename_lookup_counterexample :
    write_day_output Writer.json [col_schema] store_x 0 1 1
        = Except.ok (DayFile.json []) ∧
    (Except.ok (DayFile.json []) : Except GenError DayFile)
        ≠ Except.ok (DayFile.json [[("new-x", Value.num 7)]]) :=
  ⟨by decide, by decide⟩

lemma length_filterMap_of_isSome {α β : Type} (l : List α) (F : α → Option β)
    (h : ∀ a ∈ l, (F a).isSome = true) : (l.filterMap F).length = l.length := by
  induction l with
  | nil => rfl
  | cons a rest ih =>
    rw [List.filterMap_cons]
    cases hF : F a with
    | none =>
      exact absurd (h a (List.mem_cons_self a rest)) (by simp [hF])
    | some b =>
      rw [List.length_cons, ih (fun x hx => h x (List.mem_cons_of_mem a hx)),
        List.length_cons]

lemma csv_get_data_row_entries (fns : List String) (ri : ℕ)
    (handles : List (String × List Value)) (s0 : String) :
    ∀ v ∈ CSVWriter.get_data_row fns ri handles (Value.str s0),
      ∃ s, v = Value.str s := by
  intro v hv
  unfold CSVWriter.get_data_row at hv
  rcases List.mem_map.mp hv with ⟨f, _, rfl⟩
  cases h1 : lookup_handle handles f with
  | none => exact ⟨s0, rfl⟩
  | some cache =>
    cases h2 : cache_read cache ri with
    | none => exact ⟨s0, by simp [h2]⟩
    | some w => exact ⟨pyStr w, by simp [h2]⟩

/-- C2 amended: a row is dropped iff it is exactly `[None]`; hence in the
JSON and JSON-lines formats only a single-column row whose sole field
resolved to the `None` marker is dropped, while the CSV writer (whose null
marker is the empty string, and whose entries are always strings) never
drops a row, whatever the number of columns. -/
theorem null_row_dropping_exact (fns : List String) (hfns : fns ≠ [])
    (handles : List (String × List Value)) (rows_per_day : ℕ) (f : String) :
    (CSVWriter.write_day fns handles rows_per_day).snd.length = rows_per_day ∧
    (∀ record ∈ JSONWriter.write_day [f] handles rows_per_day,
      record ≠ [(f, Value.none)]) ∧
    (∀ record ∈ JSONLinesWriter.write_day [f] handles rows_per_day,
      record ≠ [(f, Value.none)]) := by
  refine ⟨?_, ?_, ?_⟩
  · unfold CSVWriter.write_day
    dsimp only
    rw [length_filterMap_of_isSome, List.length_map, List.length_range]
    intro ri _
    have hne1 : CSVWriter.get_data_row fns ri handles (Value.str "") ≠ [] := by
      intro h0
      apply hfns
      unfold CSVWriter.get_data_row at h0
      exact List.map_eq_nil_iff.mp h0
    have hne2 : CSVWriter.get_data_row fns ri handles (Value.str "")
        ≠ [Value.none] := by
      intro h1
      have hmem : Value.none ∈ CSVWriter.get_data_row fns ri handles
          (Value.str "") := by
        rw [h1]
        exact List.mem_singleton_self _
      rcases csv_get_data_row_entries fns ri handles "" _ hmem with ⟨s, hs⟩
      cases hs
    rw [if_pos ⟨hne1, hne2⟩]
    rfl
  · intro record hrec
    unfold JSONWriter.write_day at hrec
    rcases List.mem_filterMap.mp hrec with ⟨ri, _, hF⟩
    dsimp only at hF
    have hrow : ∃ y, JSONWriter.get_data_row [f] ri handles Value.none = [y] :=
      ⟨_, by unfold JSONWriter.get_data_row; rw [List.map_singleton]⟩
    rcases hrow with ⟨y, hy⟩
    rw [hy] at hF
    by_cases hcond : (([y] : List Value) ≠ [] ∧ ([y] : List Value) ≠ [Value.none])
    · rw [if_pos hcond] at hF
      have hrec2 := Option.some.inj hF
      intro hbad
      rw [hbad] at hrec2
      have hyv : y = Value.none := by
        have := congrArg (fun l => List.get? l 0) hrec2
        simpa [List.zip] using this
      exact hcond.2 (by rw [hyv])
    · rw [if_neg hcond] at hF
      cases hF
  · intro record hrec
    unfold JSONLinesWriter.write_day at hrec
    rcases List.mem_filterMap.mp hrec with ⟨ri, _, hF⟩
    dsimp only at hF
    have hrow : ∃ y, JSONLinesWriter.get_data_row [f] ri handles Value.none = [y] :=
      ⟨_, by unfold JSONLinesWriter.get_data_row; rw [List.map_singleton]⟩
    rcases hrow with ⟨y, hy⟩
    rw [hy] at hF
    by_cases hcond : (([y] : List Value) ≠ [] ∧ ([y] : List Value) ≠ [Value.none])
    · rw [if_pos hcond] at hF
      have hrec2 := Option.some.inj hF
      intro hbad
      rw [hbad] at hrec2
      have hyv : y = Value.none := by
        have := congrArg (fun l => List.get? l 0) hrec2
        simpa [List.zip] using this
      exact hcond.2 (by rw [hyv])
    · rw [if_neg hcond] at hF
      cases hF

/-- Witness for C2 amended: one column, an empty cache store, two row
positions. -/
theorem null_row_dropping_exact_witness :
    (["a"] : List String) ≠ [] ∧
    ((CSVWriter.write_day ["a"] [] 2).snd.length = 2 ∧
      (∀ record ∈ JSONWriter.write_day ["a"] [] 2, record ≠ [("a", Value.none)]) ∧
      (∀ record ∈ JSONLinesWriter.write_day ["a"] [] 2,
        record ≠ [("a", Value.none)])) :=
  ⟨by decide, null_row_dropping_exact ["a"] (by decide) [] 2 "a"⟩

/-- C2 counterexample: a two-column JSON day in which every field of the
only row resolved to the null marker is emitted, not dropped. -/
theorem null_row_dropping_counterexample :
    JSONWriter.write_day ["x", "y"] [("x", []), ("y", [])] 1
        = [[("x", Value.none), ("y", Value.none)]] ∧
    ([[("x", Value.none), ("y", Value.none)]] : List (List (String × Value))) ≠ [] :=
  ⟨by decide, by decide⟩

/-- C7 amended: the Row Count Planner computes each day's count as the
`int`-truncation (toward zero) of `base_rows_per_day * f`, optionally
truncated again after the anomalous reduction, and clamped to a minimum of
1 — with truncation, not rounding, in step 1; every entry is a positive
integer. -/
theorem rows_per_day_truncation_formula (num_days approx_rows_per_day : ℕ)
    (variation reduction_probability reduction_factor : ℚ) (r : RunRand)
    (d : ℕ) (hd : d < num_days) :
    (generate_rows_per_day_map num_days approx_rows_per_day variation
        reduction_probability reduction_factor r)[d]?
      = Option.some ((max 1
          (if r.u2 d > reduction_probability then
            pyInt ((pyInt ((approx_rows_per_day : ℚ)
                * (1 + (r.u1 d - 1/2) * 2 * variation)) : ℚ) * reduction_factor)
          else
            pyInt ((approx_rows_per_day : ℚ)
              * (1 + (r.u1 d - 1/2) * 2 * variation)))).toNat) ∧
    ∀ x ∈ generate_rows_per_day_map num_days approx_rows_per_day variation
        reduction_probability reduction_factor r, 1 ≤ x := by
  constructor
  · unfold generate_rows_per_day_map
    rw [List.getElem?_map, List.getElem?_range hd]
    rfl
  · intro x hx
    unfold generate_rows_per_day_map at hx
    rcases List.mem_map.mp hx with ⟨day, _, rfl⟩
    dsimp only
    have h1 : (1:ℤ) ≤ max 1 (if r.u2 day > reduction_probability then
        pyInt ((pyInt ((approx_rows_per_day : ℚ)
            * (1 + (r.u1 day - 1/2) * 2 * variation)) : ℚ) * reduction_factor)
      else
        pyInt ((approx_rows_per_day : ℚ)
          * (1 + (r.u1 day - 1/2) * 2 * variation))) := le_max_left _ _
    omega

/-- Witness for C7 amended: positivity of every planned count on a
concrete one-day plan. -/
theorem rows_per_day_truncation_formula_witness :
    0 < 1 ∧
    ∀ x ∈ generate_rows_per_day_map 1 2 1 1 (1/10) ⟨fun _ => 7/8, fun _ => 0⟩,
      1 ≤ x :=
  ⟨by decide,
    (rows_per_day_truncation_formula 1 2 1 1 (1/10) ⟨fun _ => 7/8, fun _ => 0⟩
      0 (by decide)).2⟩

/-- C7 counterexample: with base 2 rows/day, variation bound 1 and a
variation draw of 7/8, the product is 3.5; the code truncates to 3 while
the claimed `round` gives 4. -/
theorem rows_per_day_round_counterexample :
    generate_rows_per_day_map 1 2 1 1 (1/10) ⟨fun _ => 7/8, fun _ => 0⟩ = [3] ∧
    spec_rows_per_day_map 1 2 1 1 (1/10) ⟨fun _ => 7/8, fun _ => 0⟩ = [4] ∧
    ([3] : List ℕ) ≠ [4] :=
  ⟨by decide, by decide, by decide⟩

lemma generate_days_loop_ok_iff (g : ℕ → ℕ → Option GenError) (ci : ℕ)
    (ds : List ℕ) :
    generate_days_loop g ci ds = Except.ok () ↔ ∀ d ∈ ds, g ci d = Option.none := by
  induction ds with
  | nil => simp [generate_days_loop]
  | cons d rest ih =>
    rw [generate_days_loop]
    cases hg : g ci d with
    | some e =>
      simp only [List.mem_cons]
      constructor
      · intro h
        cases h
      · intro h
        rw [h d (Or.inl rfl)] at hg
        cases hg
    | none =>
      rw [ih]
      constructor
      · intro h x hx
        rcases List.mem_cons.mp hx with hx1 | hx2
        · rw [hx1]
          exact hg
        · exact h x hx2
      · intro h x hx
        exact h x (List.mem_cons_of_mem d hx)

lemma generate_columns_loop_ok_iff (g : ℕ → ℕ → Option GenError)
    (num_days : ℕ) (cis : List ℕ) :
    generate_columns_loop g num_days cis = Except.ok () ↔
      ∀ ci ∈ cis, ∀ d ∈ List.range num_days, g ci d = Option.none := by
  induction cis with
  | nil => simp [generate_columns_loop]
  | cons ci rest ih =>
    rw [generate_columns_loop]
    cases hdl : generate_days_loop g ci (List.range num_days) with
    | error e =>
      simp only [List.mem_cons]
      constructor
      · intro h
        cases h
      · intro h
        have : generate_days_loop g ci (List.range num_days) = Except.ok () :=
          (generate_days_loop_ok_iff g ci (List.range num_days)).mpr
            (fun d hd => h ci (Or.inl rfl) d hd)
        rw [this] at hdl
        cases hdl
    | ok u =>
      cases u
      rw [ih]
      constructor
      · intro h x hx d hd
        rcases List.mem_cons.mp hx with hx1 | hx2
        · rw [hx1]
          exact (generate_days_loop_ok_iff g ci (List.range num_days)).mp hdl d hd
        · exact h x hx2 d hd
      · intro h x hx d hd
        exact h x (List.mem_cons_of_mem ci hx) d hd

/-- C8: if any column's generation fails on any day, `generate` propagates
the failure as a DataGenerationError and produces no output file at all —
output writing is sequenced strictly after all columns have completed
generation for all days. -/
theorem generation_failure_aborts_run (format_name : String)
    (cols : List ColumnConfig) (num_days approx_rows_per_day : ℕ)
    (variation reduction_probability reduction_factor : ℚ) (rr : RunRand)
    (gen_outcome : ℕ → ℕ → Option GenError)
    (store : String → ℕ → Option (List Value))
    (ci d : ℕ) (hci : ci < cols.length) (hd : d < num_days)
    (e : GenError) (hfail : gen_outcome ci d = Option.some e) :
    (generate format_name cols num_days approx_rows_per_day variation
        reduction_probability reduction_factor rr gen_outcome store).1 = [] ∧
    ∃ msg, (generate format_name cols num_days approx_rows_per_day variation
        reduction_probability reduction_factor rr gen_outcome store).2
      = Except.error (GenError.data_generation_error msg) := by
  have hnotok : generate_column_data gen_outcome cols.length num_days
      ≠ Except.ok () := by
    unfold generate_column_data
    intro h
    have hall := (generate_columns_loop_ok_iff gen_outcome num_days
      (List.range cols.length)).mp h
    have hnone := hall ci (List.mem_range.mpr hci) d (List.mem_range.mpr hd)
    rw [hfail] at hnone
    cases hnone
  cases hg : generate_column_data gen_outcome cols.length num_days with
  | ok u =>
    cases u
    exact absurd hg hnotok
  | error e2 =>
    unfold generate
    dsimp only
    rw [hg]
    exact ⟨rfl, ⟨"Data generation failed: " ++ e2.message, rfl⟩⟩

/-- Witness for C8: a single column whose day-0 generation raises a cache
error yields an aborted run with no files. -/
theorem generation_failure_aborts_run_witness :
    0 < 1 ∧ 0 < 1 ∧
    (fun _ _ => Option.some (GenError.cache_error "boom") : ℕ → ℕ → Option GenError) 0 0
        = Option.some (GenError.cache_error "boom") ∧
    ((generate "csv" [col_id_int] 1 5 0 1 (1/10) ⟨fun _ => 0, fun _ => 0⟩
        (fun _ _ => Option.some (GenError.cache_error "boom")) store_x).1 = [] ∧
      ∃ msg, (generate "csv" [col_id_int] 1 5 0 1 (1/10) ⟨fun _ => 0, fun _ => 0⟩
          (fun _ _ => Option.some (GenError.cache_error "boom")) store_x).2
        = Except.error (GenError.data_generation_error msg)) :=
  ⟨by decide, by decide, by decide,
    generation_failure_aborts_run "csv" [col_id_int] 1 5 0 1 (1/10)
      ⟨fun _ => 0, fun _ => 0⟩ (fun _ _ => Option.some (GenError.cache_error "boom"))
      store_x 0 0 (by decide) (by decide) (GenError.cache_error "boom") (by decide)⟩

/-- C9: requesting an output format outside csv/json/jsonl makes the
writer factory raise OutputError, and `_write_output_data` then produces
zero output files. -/
theorem unsupported_format_raises_output_error (format_name : String)
    (h1 : format_name ≠ "csv") (h2 : format_name ≠ "json")
    (h3 : format_name ≠ "jsonl") (cols : List ColumnConfig)
    (store : String → ℕ → Option (List Value)) (rows_map : ℕ → ℕ)
    (num_days : ℕ) :
    create_writer format_name = Except.error (GenError.output_error
        ("Unsupported output format: " ++ format_name)) ∧
    (write_output_data format_name cols store rows_map num_days).1 = [] ∧
    (write_output_data format_name cols store rows_map num_days).2
      = Except.error (GenError.output_error
          ("Unsupported output format: " ++ format_name)) := by
  have hc : create_writer format_name = Except.error (GenError.output_error
      ("Unsupported output format: " ++ format_name)) := by
    unfold create_writer
    rw [if_neg h1, if_neg h2, if_neg h3]
  refine ⟨hc, ?_, ?_⟩ <;> unfold write_output_data <;> rw [hc]

/-- Witness for C9 at the format name "xml". -/
theorem unsupported_format_raises_output_error_witness :
    ("xml" : String) ≠ "csv" ∧ ("xml" : String) ≠ "json" ∧
    ("xml" : String) ≠ "jsonl" ∧
    (create_writer "xml" = Except.error (GenError.output_error
        "Unsupported output format: xml") ∧
      (write_output_data "xml" [col_id_int] store_x (fun _ => 1) 3).1 = [] ∧
      (write_output_data "xml" [col_id_int] store_x (fun _ => 1) 3).2
        = Except.error (GenError.output_error "Unsupported output format: xml")) :=
  ⟨by decide, by decide, by decide,
    unsupported_format_raises_output_error "xml" (by decide) (by decide)
      (by decide) [col_id_int] store_x (fun _ => 1) 3⟩

end DataGen
